import Mathlib

/-!
Verification of the `@nll/datum` DatumEither module (src/src/DatumEither.ts).

A `DatumEither E A` is a `Datum (Either E A)`: a four-state loading lifecycle
(initial / pending / refresh / replete) whose payload, when present, is a
binary success/failure outcome.

The `Datum` lifecycle primitive and the `Either` outcome primitive live
outside the file under verification (in `./Datum` and in fp-ts); the spec
treats them as black boxes supplying `initial`, `pending`, `refresh`,
`replete`, `isValued` and a total `fold`.  They are modelled here from those
contracts.  The functions of `DatumEither.ts` itself (`success`, `failure`,
`isSuccess`, `isFailure`, `toRefresh`, `fromNullable`, `refreshFold`,
`squash`, `constInitial`, `constPending`) are translated directly from the
source.  The derived transformers `map`, `chain`, `alt` are produced in the
source by `pipeable(getEitherM(datum))`, code that is not part of the file
under verification; they are modelled from the spec's per-operation
contracts.
-/

/-- The binary success/failure outcome primitive (fp-ts `Either`):
`left` is failure, `right` is success. -/
inductive Either (E : Type) (A : Type) where
  | left (e : E)
  | right (a : A)
deriving DecidableEq, Repr

/-- fp-ts `isLeft`. -/
def Either.isLeft : Either E A → Bool
  | .left _ => true
  | .right _ => false

/-- fp-ts `isRight`. -/
def Either.isRight : Either E A → Bool
  | .left _ => false
  | .right _ => true

/-- Modelled from the spec: the four-state loading lifecycle primitive
(`./Datum`, not under src/): not-requested / loading / refreshing-with-payload
/ settled-with-payload. -/
inductive Datum (A : Type) where
  | initial
  | pending
  | refresh (value : A)
  | replete (value : A)
deriving DecidableEq, Repr

/-- Modelled from the spec: the lifecycle's `isValued` predicate — true iff
the tag is refresh (Refreshing) or replete (Settled). -/
def Datum.isValued : Datum A → Bool
  | .refresh _ => true
  | .replete _ => true
  | _ => false

/-- Modelled from the spec: the lifecycle's total `fold` eliminator,
`fold(onInitial, onPending, onRefresh, onReplete)`; the first two branches
are thunks, the last two receive the payload. -/
def Datum.fold (onInitial : Unit → B) (onPending : Unit → B)
    (onRefresh : A → B) (onReplete : A → B) : Datum A → B
  | .initial => onInitial ()
  | .pending => onPending ()
  | .refresh v => onRefresh v
  | .replete v => onReplete v

/-- `DatumEither<E, A> = Datum<Either<E, A>>` (src/src/DatumEither.ts line 75). -/
abbrev DatumEither (E A : Type) := Datum (Either E A)

namespace DatumEither

/-- `success = a => replete(right(a))` (line 98). -/
def success (a : A) : DatumEither E A :=
  Datum.replete (Either.right a)

/-- `failure = e => replete(left(e))` (line 103). -/
def failure (e : E) : DatumEither E A :=
  Datum.replete (Either.left e)

/-- `constInitial = () => initial` (line 118). -/
def constInitial : Unit → DatumEither E A :=
  fun _ => Datum.initial

/-- `constPending = () => pending` (line 123). -/
def constPending : Unit → DatumEither E A :=
  fun _ => Datum.pending

/-- `isSuccess = fea => isValued(fea) && isRight(fea.value)` (lines 128-129);
the guarded `.value` access is embedded as a match on the two valued tags. -/
def isSuccess : DatumEither E A → Bool
  | .refresh v => v.isRight
  | .replete v => v.isRight
  | _ => false

/-- `isFailure = fea => isValued(fea) && isLeft(fea.value)` (lines 134-135). -/
def isFailure : DatumEither E A → Bool
  | .refresh v => v.isLeft
  | .replete v => v.isLeft
  | _ => false

/-- `toRefresh = fea => fold(constPending, constPending, () => fea, a => refresh(a))(fea)`
(lines 140-146). -/
def toRefresh (fea : DatumEither E A) : DatumEither E A :=
  Datum.fold constPending constPending (fun _ => fea) (fun a => Datum.refresh a) fea

/-- `fromNullable = a => (a === null || a === undefined ? initial : success(a))`
(lines 166-168); a nullable `A` is embedded as `Option A`. -/
def fromNullable (a : Option A) : DatumEither E A :=
  match a with
  | none => Datum.initial
  | some a => success a

/-- `refreshFold` (lines 173-184): folds the four lifecycle tags into
onInitial / onPending / onFailure / onSuccess, flagging the valued handlers
with `true` for Refresh and `false` for Replete. -/
def refreshFold (onInitial : Unit → B) (onPending : Unit → B)
    (onFailure : E → Bool → B) (onSuccess : A → Bool → B)
    (fea : DatumEither E A) : B :=
  Datum.fold onInitial onPending
    (fun e => match e with
      | .right a => onSuccess a true
      | .left e => onFailure e true)
    (fun e => match e with
      | .right a => onSuccess a false
      | .left e => onFailure e false)
    fea

/-- `squash` (lines 189-199): like `refreshFold` but collapses Initial and
Pending into one `onNone` branch, passed `false` for Initial and `true`
for Pending. -/
def squash (onNone : Bool → B) (onFailure : E → Bool → B)
    (onSuccess : A → Bool → B) (fea : DatumEither E A) : B :=
  Datum.fold (fun _ => onNone false) (fun _ => onNone true)
    (fun e => match e with
      | .right a => onSuccess a true
      | .left e => onFailure e true)
    (fun e => match e with
      | .right a => onSuccess a false
      | .left e => onFailure e false)
    fea

/-- Modelled from the spec: `map(f)` of the combined instance (produced in
the source by `pipeable(getEitherM(datum))`, code not under src/):
NotRequested/Loading unchanged; Refreshing/Settled unchanged in tag, with a
Success payload transformed by `f` and a Failure payload left untouched. -/
def map (f : A → B) : DatumEither E A → DatumEither E B
  | .initial => .initial
  | .pending => .pending
  | .refresh (.left e) => .refresh (.left e)
  | .refresh (.right a) => .refresh (.right (f a))
  | .replete (.left e) => .replete (.left e)
  | .replete (.right a) => .replete (.right (f a))

/-- Modelled from the spec: `chain(f)` of the combined instance (produced in
the source by `pipeable(getEitherM(datum))`, code not under src/):
NotRequested/Loading unchanged (short-circuit); a Failure payload
short-circuits unchanged with its tag preserved; a Success payload is passed
to `f` and the result replaces the original entirely. -/
def chain (f : A → DatumEither E B) : DatumEither E A → DatumEither E B
  | .initial => .initial
  | .pending => .pending
  | .refresh (.left e) => .refresh (.left e)
  | .replete (.left e) => .replete (.left e)
  | .refresh (.right a) => f a
  | .replete (.right a) => f a

/-- Modelled from the spec: `alt(that)` of the combined instance (produced in
the source by `pipeable(getEitherM(datum))`, code not under src/): returns
the receiver if it is valued-and-Success; otherwise lazily evaluates and
returns `that()`. -/
def alt (that : Unit → DatumEither E A) (fea : DatumEither E A) : DatumEither E A :=
  if isSuccess fea then fea else that ()

end DatumEither

open DatumEither

/-- Claim C1, counterexample: `toRefresh` is not the identity on NotRequested —
`toRefresh(NotRequested)` is Loading, not NotRequested. -/
theorem toRefresh_initial_gives_pending :
    toRefresh (Datum.initial : DatumEither Nat Nat) = Datum.pending ∧
    toRefresh (Datum.initial : DatumEither Nat Nat) ≠ Datum.initial := by
  exact ⟨rfl, by decide⟩

/-- Claim C1 (amended): `toRefresh` maps Settled(o) to Refreshing(o) with the
same Outcome, is the identity on Refreshing and on Loading, and maps
NotRequested to Loading. -/
theorem toRefresh_characterization (E A : Type) (o : Either E A) :
    toRefresh (Datum.initial : DatumEither E A) = Datum.pending ∧
    toRefresh (Datum.pending : DatumEither E A) = Datum.pending ∧
    toRefresh (Datum.replete o) = Datum.refresh o ∧
    toRefresh (Datum.refresh o) = Datum.refresh o :=
  ⟨rfl, rfl, rfl, rfl⟩

/-- Claim C5: `toRefresh` is idempotent — `toRefresh(toRefresh(s)) = toRefresh(s)`
for every CombinedState `s`. -/
theorem toRefresh_idempotent (E A : Type) (s : DatumEither E A) :
    toRefresh (toRefresh s) = toRefresh s := by
  cases s <;> rfl

/-- Claim C10: `toRefresh` on NotRequested returns Loading — the same result as
on Loading — and its result is never NotRequested: it is always Loading or a
Refreshing value. -/
theorem toRefresh_never_initial (E A : Type) (s : DatumEither E A) :
    toRefresh (Datum.initial : DatumEither E A) = Datum.pending ∧
    toRefresh (Datum.initial : DatumEither E A) = toRefresh (Datum.pending : DatumEither E A) ∧
    (toRefresh s = Datum.pending ∨ ∃ o, toRefresh s = Datum.refresh o) := by
  refine ⟨rfl, rfl, ?_⟩
  cases s with
  | initial => exact Or.inl rfl
  | pending => exact Or.inl rfl
  | refresh o => exact Or.inr ⟨o, rfl⟩
  | replete o => exact Or.inr ⟨o, rfl⟩

/-- Claim C2: `chain(f)` leaves NotRequested and Loading unchanged,
short-circuits a Failure payload unchanged with its lifecycle tag preserved,
and on a Success payload replaces the original entirely with `f`'s result;
in particular `chain(a => a > 0 ? success(a*2) : pending)` maps
`success(3)` to `success(6)` and `success(-1)` to pending. -/
theorem chain_characterization (E A B : Type) (f : A → DatumEither E B)
    (e : E) (a : A) :
    chain f (Datum.initial : DatumEither E A) = Datum.initial ∧
    chain f (Datum.pending : DatumEither E A) = Datum.pending ∧
    chain f (Datum.refresh (Either.left e)) = Datum.refresh (Either.left e) ∧
    chain f (Datum.replete (Either.left e)) = Datum.replete (Either.left e) ∧
    chain f (Datum.refresh (Either.right a)) = f a ∧
    chain f (Datum.replete (Either.right a)) = f a ∧
    chain (fun a : Int => if a > 0 then success (a * 2) else Datum.pending)
      (success 3 : DatumEither String Int) = success 6 ∧
    chain (fun a : Int => if a > 0 then success (a * 2) else Datum.pending)
      (success (-1) : DatumEither String Int) = Datum.pending :=
  ⟨rfl, rfl, rfl, rfl, rfl, rfl, by decide, by decide⟩

/-- Claim C3: `alt(that)` returns the receiver when it is valued-and-Success and
otherwise returns `that()`; the thunk is evaluated zero times in the Success
case (the result does not depend on it) and exactly once otherwise (the
result is the thunk's single evaluation). -/
theorem alt_characterization (E A : Type) (s : DatumEither E A)
    (that that' : Unit → DatumEither E A) :
    alt that s = (if isSuccess s then s else that ()) ∧
    (if isSuccess s then alt that s = alt that' s else alt that s = that ()) := by
  refine ⟨rfl, ?_⟩
  by_cases h : isSuccess s <;> simp [alt, h]

/-- Claim C4, counterexample: the monad right-identity law `chain(success) == id`
fails on the Refreshing-Success shape — chaining `success` re-settles
`Refreshing(Success 0)` to `Settled(Success 0)`. -/
theorem chain_success_not_identity :
    chain (success : Nat → DatumEither Nat Nat) (Datum.refresh (Either.right 0)) ≠
      Datum.refresh (Either.right 0) := by
  decide

/-- Claim C4 (amended): `map` satisfies the functor laws and `chain` satisfies
left identity and associativity with `success` as unit, for all six shapes and
arbitrary types; the right-identity law `chain(success) == id` holds on every
shape except Refreshing(Success a), which `chain(success)` maps to
Settled(Success a). -/
theorem functor_monad_laws (E A B C : Type) (s : DatumEither E A)
    (f : A → B) (g : B → C) (h : A → DatumEither E B) (k : B → DatumEither E C)
    (a : A) (e : E) (o : Either E A) :
    map id s = s ∧
    map (g ∘ f) s = map g (map f s) ∧
    chain h (success a) = h a ∧
    chain k (chain h s) = chain (fun x => chain k (h x)) s ∧
    chain success (Datum.initial : DatumEither E A) = Datum.initial ∧
    chain success (Datum.pending : DatumEither E A) = Datum.pending ∧
    chain success (Datum.refresh (Either.left e) : DatumEither E A) =
      Datum.refresh (Either.left e) ∧
    chain success (Datum.replete o) = Datum.replete o ∧
    chain success (Datum.refresh (Either.right a) : DatumEither E A) =
      Datum.replete (Either.right a) := by
  refine ⟨?_, ?_, rfl, ?_, rfl, rfl, rfl, ?_, rfl⟩
  · cases s with
    | initial => rfl
    | pending => rfl
    | refresh v => cases v <;> rfl
    | replete v => cases v <;> rfl
  · cases s with
    | initial => rfl
    | pending => rfl
    | refresh v => cases v <;> rfl
    | replete v => cases v <;> rfl
  · cases s with
    | initial => rfl
    | pending => rfl
    | refresh v => cases v <;> rfl
    | replete v => cases v <;> rfl
  · cases o <;> rfl

/-- Claim C6: `map(f)` leaves NotRequested and Loading unchanged, keeps the
lifecycle tag of Refreshing and Settled values, transforms a Success payload
by `f` and leaves a Failure payload untouched; in particular
`map(x => x + 1)` maps `Settled(Success 4)` to `Settled(Success 5)` and
leaves `Settled(Failure "e")` unchanged. -/
theorem map_characterization (E A B : Type) (f : A → B) (e : E) (a : A) :
    map f (Datum.initial : DatumEither E A) = Datum.initial ∧
    map f (Datum.pending : DatumEither E A) = Datum.pending ∧
    map f (Datum.refresh (Either.left e)) = Datum.refresh (Either.left e) ∧
    map f (Datum.replete (Either.left e)) = Datum.replete (Either.left e) ∧
    map f (Datum.refresh (Either.right a) : DatumEither E A) =
      Datum.refresh (Either.right (f a)) ∧
    map f (Datum.replete (Either.right a) : DatumEither E A) =
      Datum.replete (Either.right (f a)) ∧
    map (fun x : Nat => x + 1) (success 4 : DatumEither String Nat) = success 5 ∧
    map (fun x : Nat => x + 1) (failure "e" : DatumEither String Nat) = failure "e" :=
  ⟨rfl, rfl, rfl, rfl, rfl, rfl, rfl, rfl⟩

/-- Claim C7: `refreshFold` and `squash` pass `true` to the failure/success
handler for a Refreshing value and `false` for a Settled value, and `squash`
collapses NotRequested and Loading into `onNone`, passed `false` for
NotRequested and `true` for Loading. -/
theorem refreshFold_squash_flags (E A B : Type) (onI onP : Unit → B)
    (onN : Bool → B) (onF : E → Bool → B) (onS : A → Bool → B) (e : E) (a : A) :
    refreshFold onI onP onF onS (Datum.initial : DatumEither E A) = onI () ∧
    refreshFold onI onP onF onS (Datum.pending : DatumEither E A) = onP () ∧
    refreshFold onI onP onF onS (Datum.refresh (Either.right a)) = onS a true ∧
    refreshFold onI onP onF onS (Datum.replete (Either.right a)) = onS a false ∧
    refreshFold onI onP onF onS (Datum.refresh (Either.left e)) = onF e true ∧
    refreshFold onI onP onF onS (Datum.replete (Either.left e)) = onF e false ∧
    squash onN onF onS (Datum.initial : DatumEither E A) = onN false ∧
    squash onN onF onS (Datum.pending : DatumEither E A) = onN true ∧
    squash onN onF onS (Datum.refresh (Either.right a)) = onS a true ∧
    squash onN onF onS (Datum.replete (Either.right a)) = onS a false ∧
    squash onN onF onS (Datum.refresh (Either.left e)) = onF e true ∧
    squash onN onF onS (Datum.replete (Either.left e)) = onF e false :=
  ⟨rfl, rfl, rfl, rfl, rfl, rfl, rfl, rfl, rfl, rfl, rfl, rfl⟩

/-- Claim C8: `fromNullable` maps an absent input to NotRequested — which is
neither Loading nor a Failure — and maps every present value `a` to
Settled(Success a). -/
theorem fromNullable_characterization (E A : Type) (a : A) :
    fromNullable (none : Option A) = (Datum.initial : DatumEither E A) ∧
    fromNullable (none : Option A) ≠ (Datum.pending : DatumEither E A) ∧
    isFailure (fromNullable (none : Option A) : DatumEither E A) = false ∧
    fromNullable (some a) = (success a : DatumEither E A) ∧
    fromNullable (some a) = (Datum.replete (Either.right a) : DatumEither E A) :=
  ⟨rfl, fun h => Datum.noConfusion h, rfl, rfl, rfl⟩

/-- Claim C9: `isSuccess` and `isFailure` are never both true, and each implies
`isValued` (stated as boolean equations: their conjunction is `false`, and
each is unchanged by conjunction with `isValued`). -/
theorem isSuccess_isFailure_exclusive (E A : Type) (s : DatumEither E A) :
    (isSuccess s && isFailure s) = false ∧
    isSuccess s = (s.isValued && isSuccess s) ∧
    isFailure s = (s.isValued && isFailure s) := by
  cases s with
  | initial => exact ⟨rfl, rfl, rfl⟩
  | pending => exact ⟨rfl, rfl, rfl⟩
  | refresh v => cases v <;> exact ⟨rfl, rfl, rfl⟩
  | replete v => cases v <;> exact ⟨rfl, rfl, rfl⟩
